import Mathlib

/-!
Verification of the cinema-analytics dashboard script
(`js/cinema-dashboard.js`) against its natural-language specification.

The script is shallowly embedded: JavaScript objects become association
lists (`List (String × _)`, matching `Object.entries` order for the
non-index string keys that occur here), absent fields become `Option`,
JavaScript numbers are modelled as `Int` (every value the claims touch is
integral), thrown exceptions become `Except`, and the stable
`Array.prototype.sort` is modelled by `List.insertionSort` with the
comparator's induced total preorder (any stable sort agrees with it).
-/

/-- Character-wise lowercasing, the model of `String.prototype.toLowerCase`
for the ASCII names compared against the sentinel `"unknown"`. -/
def jsToLower (s : String) : String := ⟨s.data.map Char.toLower⟩

/-- Value of a digit string, most significant digit first. -/
def digitsVal (ds : List Char) : Int :=
  (ds.foldl (fun n c => n * 10 + (c.toNat - 48)) 0 : Nat)

/-- Decimal-integer subset of JavaScript `Number(string)` coercion: an
optional sign followed by digits; the empty string coerces to `0`; any
other string is `NaN`, represented as `none`.  (Fractional, exponent and
whitespace forms do not occur in the data the dashboard reads.) -/
def jsStrToNum (s : String) : Option Int :=
  match s.data with
  | [] => some 0
  | '-' :: ds => if ds ≠ [] ∧ ds.all Char.isDigit then some (-(digitsVal ds)) else none
  | '+' :: ds => if ds ≠ [] ∧ ds.all Char.isDigit then some (digitsVal ds) else none
  | ds => if ds.all Char.isDigit then some (digitsVal ds) else none

/-- Does `pat` occur at the head of `l`? -/
def isSubAt : List Char → List Char → Bool
  | [], _ => true
  | _ :: _, [] => false
  | a :: as, b :: bs => a = b && isSubAt as bs

/-- Does `pat` occur contiguously anywhere in `l`?  Used to state what a
string does (or does not) contain. -/
def containsSub (pat : List Char) : List Char → Bool
  | [] => isSubAt pat []
  | c :: cs => isSubAt pat (c :: cs) || containsSub pat cs

/-- Descending order induced by an integer key, the relation under which
`List.insertionSort` models a stable `sort((a, b) => key(b) - key(a))`. -/
def descBy (f : α → Int) (a b : α) : Prop := f b ≤ f a

instance (f : α → Int) : DecidableRel (descBy f) :=
  fun a b => inferInstanceAs (Decidable (f b ≤ f a))

instance (f : α → Int) : IsTotal α (descBy f) :=
  ⟨fun a b => Int.le_total (f b) (f a)⟩

instance (f : α → Int) : IsTrans α (descBy f) :=
  ⟨fun _ _ _ hab hbc => le_trans hbc hab⟩

/-- Outcome of `fetch(path)` followed by `res.json()`: the fetch can throw,
return a non-ok response, or return an ok response whose body either parses
(`ok (some j)`) or throws during parsing (`ok none`). -/
inductive FetchOutcome (α : Type) where
  | thrown
  | notOk
  | ok (body : Option α)
deriving DecidableEq

/-- A candidate fails when it does not produce an ok response with a
parsable body (non-ok response, or a thrown fetch/parse error). -/
def fetchFails (o : FetchOutcome α) : Bool :=
  match o with
  | .ok (some _) => false
  | _ => true

/-- Message of the error thrown by `loadData` when every candidate fails. -/
def loadErrMsg : String := "Could not load cinema_insights.json from any path"

/-- Model of `loadData`: walk the candidate paths in order; return the
first candidate whose fetch is ok and whose body parses, and otherwise
throw.  The second component is the trace of paths actually fetched, in
order. -/
def loadData (fetch : String → FetchOutcome α) : List String → Except String α × List String
  | [] => (.error loadErrMsg, [])
  | p :: ps =>
    match fetch p with
    | .ok (some j) => (.ok j, [p])
    | _ =>
      let r := loadData fetch ps
      (r.1, p :: r.2)

/-- The `DATA_PATHS` candidate list, verbatim from the source. -/
def DATA_PATHS : List String :=
  ["../data/data/cinema_insights.json",
   "../data/cinema_insights.json",
   "data/data/cinema_insights.json",
   "data/cinema_insights.json",
   "cinema_insights.json",
   "./cinema_insights.json"]

/-- One `<li>` item of the attempted-path list in the error view. -/
def wrapLi (p : String) : String := "<li><code>" ++ p ++ "</code></li>"

/-- HTML assigned to the `error` element by `showError(message)`; the
template interpolates the message and the globally configured
`DATA_PATHS`, each path wrapped as a list item. -/
def showErrorHTML (message : String) : String :=
  "\n    <div class=\"error-message\">\n      <i class=\"fas fa-exclamation-triangle\"></i>\n      <h2>Oops! Something went wrong</h2>\n      <p>"
    ++ message
    ++ "</p>\n      <p>Tried these paths:</p>\n      <ul>"
    ++ String.join (DATA_PATHS.map wrapLi)
    ++ "</ul>\n      <p><strong>Tip:</strong> (re)generate with <code>python scripts/analyze_data.py --output data/data/cinema_insights.json</code></p>\n    </div>"

/-- The host page, modelled as the set of element ids present in it. -/
structure Dom where
  ids : List String
deriving DecidableEq

/-- Model of `document.getElementById(i)` being non-null. -/
def Dom.has (d : Dom) (i : String) : Bool := d.ids.contains i

/-- Model of `basic_stats.year_range`. -/
structure YearRange where
  span : Option Int
deriving DecidableEq

/-- Model of the `basic_stats` payload section. -/
structure BasicStats where
  total_movies : Option Int
  total_runtime_hours : Option Int
  year_range : Option YearRange
deriving DecidableEq

/-- Model of the `genres` payload section, with every alternative field the
script probes. -/
structure GenresBlock where
  total_unique_genres : Option Int
  top_10_genres : Option (List (String × Int))
  genre_distribution : Option (List (String × Int))
  distribution : Option (List (String × Int))
deriving DecidableEq

/-- The `genres` block with every field absent, the value of
`data.genres || {}` when the section is missing. -/
def emptyGenres : GenresBlock := ⟨none, none, none, none⟩

/-- JavaScript value occurring in the `decades` mapping: a bare number, a
string, an object with an optional `count` field, or `null`. -/
inductive DVal where
  | num (n : Int)
  | str (s : String)
  | obj (count : Option DVal)
  | null

/-- Structural equality test for `DVal`. -/
def DVal.beq : DVal → DVal → Bool
  | .num m, .num n => m == n
  | .str s, .str t => s == t
  | .obj none, .obj none => true
  | .obj (some c), .obj (some d) => DVal.beq c d
  | .null, .null => true
  | _, _ => false

theorem DVal.beq_iff : ∀ (a b : DVal), (DVal.beq a b = true) ↔ a = b
  | .num _, .num _ => by simp [DVal.beq]
  | .num _, .str _ => by simp [DVal.beq]
  | .num _, .obj _ => by simp [DVal.beq]
  | .num _, .null => by simp [DVal.beq]
  | .str _, .num _ => by simp [DVal.beq]
  | .str _, .str _ => by simp [DVal.beq]
  | .str _, .obj _ => by simp [DVal.beq]
  | .str _, .null => by simp [DVal.beq]
  | .obj _, .num _ => by simp [DVal.beq]
  | .obj _, .str _ => by simp [DVal.beq]
  | .obj none, .obj none => by simp [DVal.beq]
  | .obj none, .obj (some _) => by simp [DVal.beq]
  | .obj (some _), .obj none => by simp [DVal.beq]
  | .obj (some c), .obj (some d) => by
    have ih := DVal.beq_iff c d
    simp [DVal.beq, ih]
  | .obj _, .null => by simp [DVal.beq]
  | .null, .num _ => by simp [DVal.beq]
  | .null, .str _ => by simp [DVal.beq]
  | .null, .obj _ => by simp [DVal.beq]
  | .null, .null => by simp [DVal.beq]

instance : DecidableEq DVal := fun a b => decidable_of_iff _ (DVal.beq_iff a b)

/-- Model of `(v && v.count) ?? v`: a truthy object contributes its `count`
field unless that field is absent or `null`, in which case (and for every
non-object) the original value is kept. -/
def coerceCount : DVal → DVal
  | .obj (some c) => match c with
    | .null => .obj (some .null)
    | c => c
  | v => v

/-- Model of the global `isFinite` on the values reached by the decades
normalizer: numbers (and `null`, which coerces to `0`) are finite, strings
are finite when they coerce to a number, objects coerce to `NaN`. -/
def isFiniteJS : DVal → Bool
  | .num _ => true
  | .null => true
  | .str s => (jsStrToNum s).isSome
  | .obj _ => false

/-- Ascending order on decade keys used by `sort((a, b) => a[0] - b[0])`;
an unparsable key (JS `NaN`, here `none`) makes the comparator return
`NaN`, which the sort treats as a tie. -/
def decadeLE (a b : Option Int × DVal) : Prop :=
  match a.1, b.1 with
  | some x, some y => x ≤ y
  | _, _ => True

instance : DecidableRel decadeLE := fun a b => by
  unfold decadeLE
  split
  · exact inferInstanceAs (Decidable (_ ≤ _))
  · exact inferInstanceAs (Decidable True)

/-- Value occurring in the `directors` mapping: a bare count or an object
with optional `movie_count` and `total_runtime_hours` fields. -/
inductive PVal where
  | num (n : Int)
  | obj (movie_count : Option Int) (total_runtime_hours : Option Int)
deriving DecidableEq

/-- Row built by `renderDirectors` from one mapping entry. -/
structure DirRow where
  name : String
  movie_count : Int
  total_runtime_hours : Option Int
deriving DecidableEq

/-- Value occurring in the object form of `actors.top_actors`: a bare
number or an object with optional `appearances`, `movie_count` and
`birth_year` fields. -/
inductive AVal where
  | num (n : Int)
  | obj (appearances : Option Int) (movie_count : Option Int) (birth_year : Option Int)
deriving DecidableEq

/-- Record of the array form of `actors.top_actors`. -/
structure ActorRec where
  name : Option String
  movie_count : Option Int
  appearances : Option Int
  birth_year : Option Int
deriving DecidableEq

/-- Entry built by `renderActors` from either accepted shape. -/
structure AEntry where
  name : Option String
  appearances : Option Int
  birth_year : Option Int
deriving DecidableEq

/-- The two shapes `renderActors` accepts for `top_actors`. -/
inductive TopActors where
  | arr (records : List ActorRec)
  | objMap (m : List (String × AVal))
deriving DecidableEq

/-- Model of the `actors` payload section. -/
structure ActorsData where
  top_actors : Option TopActors
deriving DecidableEq

/-- One cluster record of the ML-insights mapping. -/
structure Cluster where
  size : Option Int
  percentage : Option Int
deriving DecidableEq

/-- Model of the `ml_insights` payload section with its two accepted field
names for the cluster mapping. -/
structure MLIns where
  taste_clusters : Option (List (String × Cluster))
  genre_clusters : Option (List (String × Cluster))
deriving DecidableEq

/-- Model of `graph_data.runtime_histogram`. -/
structure RuntimeHist where
  bins : Option (List String)
  counts : Option (List Int)
deriving DecidableEq

/-- Model of the `graph_data` payload section. -/
structure GraphData where
  runtime_histogram : Option RuntimeHist
deriving DecidableEq

/-- The parsed analytics payload; every section is optional. -/
structure Payload where
  basic_stats : Option BasicStats
  genres : Option GenresBlock
  decades : Option (List (String × DVal))
  directors : Option (List (String × PVal))
  actors : Option ActorsData
  ml_insights : Option MLIns
  graph_data : Option GraphData
deriving DecidableEq

/-- KPI values `renderStats` writes into the stats panel. -/
structure StatsOut where
  total : Int
  hours : Int
  span : Int
  totalGenres : Int
deriving DecidableEq

/-- Model of the genre-count fallback chain in `renderStats`
(`total_unique_genres ?? (top_10_genres && len) ?? ... ?? 0`); a present
mapping stops the chain with its key count, even when that count is 0. -/
def totalGenresOf (g : GenresBlock) : Int :=
  match g.total_unique_genres with
  | some n => n
  | none =>
    match g.top_10_genres with
    | some m => m.length
    | none =>
      match g.genre_distribution with
      | some m => m.length
      | none =>
        match g.distribution with
        | some m => m.length
        | none => 0

/-- The four KPI values `renderStats` computes from the payload
(`total_movies ?? 0`, `total_runtime_hours ?? 0`,
`(year_range && year_range.span) || 0`, and the genre-count chain). -/
def statsValues (data : Payload) : StatsOut :=
  ⟨(data.basic_stats.getD ⟨none, none, none⟩).total_movies.getD 0,
   (data.basic_stats.getD ⟨none, none, none⟩).total_runtime_hours.getD 0,
   (match (data.basic_stats.getD ⟨none, none, none⟩).year_range with
     | some yr => yr.span.getD 0
     | none => 0),
   totalGenresOf (data.genres.getD emptyGenres)⟩

/-- Model of `renderStats`.  The function dereferences the
`stats-container` element without a null check, so a page without that
element makes it throw (`.error`); otherwise it renders the four KPIs. -/
def renderStats (dom : Dom) (data : Payload) : Except Unit StatsOut :=
  if dom.has ("stats-container") then .ok (statsValues data) else .error ()

/-- Model of `pickTop`: sort the entries of a mapping descending by value
with the stable comparator `(a, b) => b[1] - a[1]` and keep the first `n`. -/
def pickTop (m : List (String × Int)) (n : Nat) : List (String × Int) :=
  (m.insertionSort (descBy (fun e => e.2))).take n

/-- Model of the shape fallback in `createGenreChart`
(`top_10_genres || pickTop(genre_distribution) || pickTop(distribution) || {}`);
a present mapping is truthy even when empty, so it stops the chain. -/
def chooseGenres (g : GenresBlock) : List (String × Int) :=
  match g.top_10_genres with
  | some m => m
  | none =>
    match g.genre_distribution with
    | some m => pickTop m 10
    | none =>
      match g.distribution with
      | some m => pickTop m 10
      | none => []

/-- Labels and values handed to the genre bar chart. -/
structure GenreOut where
  labels : List String
  values : List Int
deriving DecidableEq

/-- Model of `createGenreChart`: needs the `genreChart` canvas, picks the
genre mapping through the fallback chain (its `cloneObj` JSON round-trip is
the identity on parsed data), and renders nothing when the mapping is
empty. -/
def createGenreChart (dom : Dom) (g : GenresBlock) : Option GenreOut :=
  if dom.has ("genreChart") then
    let top10 := chooseGenres g
    if top10.isEmpty then none
    else some ⟨top10.map (fun e => e.1), top10.map (fun e => e.2)⟩
  else none

/-- The decade normalizer inside `createDecadeChart`: coerce each key with
`Number`, take each value's `count` field through `(v && v.count) ?? v`,
keep entries whose value is finite, and sort ascending by key with the
stable comparator `(a, b) => a[0] - b[0]`. -/
def decadeEntries (decades : List (String × DVal)) : List (Option Int × DVal) :=
  ((decades.map (fun kv => (jsStrToNum kv.1, coerceCount kv.2))).filter
    (fun e => isFiniteJS e.2)).insertionSort decadeLE

/-- Model of `createDecadeChart`: needs the `decadeChart` canvas and
renders nothing when no entry survives the finiteness filter. -/
def createDecadeChart (dom : Dom) (decades : List (String × DVal)) :
    Option (List (Option Int × DVal)) :=
  if dom.has ("decadeChart") then
    let entries := decadeEntries decades
    if entries.isEmpty then none else some entries
  else none

/-- Rows of one `directors` mapping entry, as built by `renderDirectors`:
a bare number is the movie count, an object contributes
`movie_count ?? 0` and its optional runtime hours. -/
def dirRowOf (kv : String × PVal) : DirRow :=
  match kv.2 with
  | .num n => ⟨kv.1, n, none⟩
  | .obj mc hrs => ⟨kv.1, mc.getD 0, hrs⟩

/-- The director normalizer: build rows, keep rows with a truthy name and
a positive count, sort descending by count (stable), keep the first 12. -/
def directorRows (directorsData : List (String × PVal)) : List DirRow :=
  (((directorsData.map dirRowOf).filter
      (fun d => d.name ≠ "" && 0 < d.movie_count)).insertionSort
    (descBy (fun d => d.movie_count))).take 12

/-- What the directors section shows: a no-data message or a grid of rows. -/
inductive DirOut where
  | noData
  | grid (rows : List DirRow)
deriving DecidableEq

/-- Model of `renderDirectors`: needs the `directors-container` element;
an empty row list renders the no-data message. -/
def renderDirectors (dom : Dom) (directorsData : List (String × PVal)) : Option DirOut :=
  if dom.has ("directors-container") then
    let rows := directorRows directorsData
    if rows.isEmpty then some .noData else some (.grid rows)
  else none

/-- Entry built from one record of the array form of `top_actors`
(`name: a.name || a[0]`, `appearances: a.movie_count ?? a.appearances ?? a[1]`;
numeric indexing of a record is `undefined`). -/
def actorEntryOfRec (a : ActorRec) : AEntry :=
  { name := match a.name with
      | some n => if n ≠ "" then some n else none
      | none => none
    appearances := match a.movie_count with
      | some n => some n
      | none => a.appearances
    birth_year := a.birth_year }

/-- Entry built from one pair of the object form of `top_actors`
(`appearances: v.appearances ?? v.movie_count ?? 0`); note that a bare
numeric value has neither field and therefore coerces to 0 appearances. -/
def actorEntryOfPair (p : String × AVal) : AEntry :=
  match p.2 with
  | .num _ => ⟨some p.1, some 0, none⟩
  | .obj app mc bry =>
    ⟨some p.1,
     some (match app with
       | some a => a
       | none => match mc with
         | some m => m
         | none => 0),
     bry⟩

/-- The raw entry list of `renderActors` before filtering. -/
def actorsList (t : Option TopActors) : List AEntry :=
  match t with
  | some (.arr rs) => rs.map actorEntryOfRec
  | some (.objMap m) => m.map actorEntryOfPair
  | none => []

/-- The filter of `renderActors`: a truthy name that is not the sentinel
`"unknown"` (case-insensitively) and a positive appearance count. -/
def actorKeep (a : AEntry) : Bool :=
  match a.name with
  | some n => n ≠ "" && jsToLower n ≠ "unknown" && 0 < a.appearances.getD 0
  | none => false

/-- The actor normalizer: build entries from either accepted shape and
filter them. -/
def actorsNormalize (t : Option TopActors) : List AEntry :=
  (actorsList t).filter actorKeep

/-- What the actors section shows: a no-data message or a grid of the
filtered entries sorted descending by appearances, truncated to 12. -/
inductive ActOut where
  | noData
  | grid (entries : List AEntry)
deriving DecidableEq

/-- Model of `renderActors`: needs the `actors-container` element; an empty
filtered list renders the no-data message, otherwise the sort and the
truncation to 12 happen after the emptiness check. -/
def renderActors (dom : Dom) (t : Option TopActors) : Option ActOut :=
  if dom.has ("actors-container") then
    let list := actorsNormalize t
    if list.isEmpty then some .noData
    else some (.grid ((list.insertionSort (descBy (fun a => a.appearances.getD 0))).take 12))
  else none

/-- Model of `escapeHTML`'s per-character replacement table. -/
def escapeChar (c : Char) : String :=
  if c = '&' then ("&amp;")
  else if c = '<' then ("&lt;")
  else if c = '>' then ("&gt;")
  else if c = '"' then ("&quot;")
  else if c = '\'' then ("&#39;")
  else String.singleton c

/-- Character-list worker of `escapeHTML`. -/
def escHTMLAux : List Char → List Char
  | [] => []
  | c :: cs => (escapeChar c).data ++ escHTMLAux cs

/-- Model of `escapeHTML`: the global single-character regex replace is the
concatenation of the per-character replacements. -/
def escapeHTML (s : String) : String := ⟨escHTMLAux s.data⟩

/-- Model of `toNumber` on the optional numeric fields it receives: a
missing value (`undefined`, which is `== null`) renders as 0. -/
def toNumber : Option Int → Int
  | none => 0
  | some n => n

/-- One ML highlight card: escaped label, size and percentage. -/
structure MLCard where
  label : String
  size : Int
  percentage : Int
deriving DecidableEq

/-- What the ML section shows: the not-enough-data placeholder or cards. -/
inductive MLOut where
  | placeholder
  | cards (cs : List MLCard)
deriving DecidableEq

/-- The cluster mapping `renderMLInsights` selects:
`ml.taste_clusters || ml.genre_clusters || {}` — a present mapping is
truthy even when empty, so it stops the chain. -/
def mlClusters (ml : MLIns) : List (String × Cluster) :=
  match ml.taste_clusters with
  | some m => m
  | none =>
    match ml.genre_clusters with
    | some m => m
    | none => []

/-- One rendered ML highlight card. -/
def mlCardOf (e : String × Cluster) : MLCard :=
  ⟨escapeHTML e.1, toNumber e.2.size, toNumber e.2.percentage⟩

/-- Model of `renderMLInsights`: needs the `ml-insights-container`
element; an empty selected mapping renders the not-enough-data
placeholder, otherwise the first 6 clusters become cards. -/
def renderMLInsights (dom : Dom) (ml : MLIns) : Option MLOut :=
  if dom.has ("ml-insights-container") then
    if (mlClusters ml).isEmpty then some .placeholder
    else some (.cards (((mlClusters ml).take 6).map mlCardOf))
  else none

/-- Labels and values handed to the runtime histogram chart. -/
structure RuntimeOut where
  labels : List String
  values : List Int
deriving DecidableEq

/-- Model of `renderRuntimeChart`: the guard
`!ctx || !hist || !hist.bins || !hist.counts` skips the chart only when the
canvas, the histogram or one of its two fields is absent — an empty array
is truthy, so present-but-empty fields still render a chart. -/
def renderRuntimeChart (dom : Dom) (hist : Option RuntimeHist) : Option RuntimeOut :=
  if dom.has ("runtimeChart") then
    match hist with
    | some h =>
      match h.bins, h.counts with
      | some bs, some cs => some ⟨bs, cs⟩
      | some _, none => none
      | none, _ => none
    | none => none
  else none

/-- Everything `initDashboard` leaves on the page: one optional output per
section, plus the error panel's HTML when the single catch handler ran. -/
structure RenderOut where
  stats : Option StatsOut
  genre : Option GenreOut
  decade : Option (List (Option Int × DVal))
  directors : Option DirOut
  runtime : Option RuntimeOut
  ml : Option MLOut
  actors : Option ActOut
  errorHTML : Option String
deriving DecidableEq

/-- The page before anything rendered. -/
def emptyOut : RenderOut := ⟨none, none, none, none, none, none, none, none⟩

/-- Stand-in message for the `TypeError` thrown when a dereferenced
element is missing. -/
def nullErrMsg : String := "TypeError"

/-- The straight-line body of `initDashboard` after `renderStats`
succeeded: every remaining section renderer runs, each on its own slice of
the payload (optional sections are skipped through `|| {}` defaults or
presence checks). -/
def renderSections (dom : Dom) (data : Payload) (st : StatsOut) : RenderOut :=
  { stats := some st
    genre := createGenreChart dom (data.genres.getD emptyGenres)
    decade := createDecadeChart dom (data.decades.getD [])
    directors := renderDirectors dom (data.directors.getD [])
    runtime := renderRuntimeChart dom (data.graph_data.bind GraphData.runtime_histogram)
    ml := match data.ml_insights with
      | some m => renderMLInsights dom m
      | none => none
    actors := match data.actors with
      | some a => renderActors dom a.top_actors
      | none => none
    errorHTML := none }

/-- Body of `initDashboard` after the load resolves: every step runs
inside the one `try` block — the `loading`/`content` toggles,
`renderStats` (which can throw), and the remaining section renderers.
Any throw jumps to the single `catch`, which renders the error panel via
`showError(error.message)`. -/
def initAfterLoad (dom : Dom) : Except String Payload → RenderOut
  | .error msg => { emptyOut with errorHTML := some (showErrorHTML msg) }
  | .ok data =>
    if dom.has ("loading") && dom.has ("content") then
      match renderStats dom data with
      | .ok st => renderSections dom data st
      | .error _ => { emptyOut with errorHTML := some (showErrorHTML nullErrMsg) }
    else { emptyOut with errorHTML := some (showErrorHTML nullErrMsg) }

/-- Model of `initDashboard` as the composition of the load and the
post-load body. -/
def initDashboard (dom : Dom) (fetch : String → FetchOutcome Payload) : RenderOut :=
  initAfterLoad dom (loadData fetch DATA_PATHS).1

/-- Default string used with `List.getD` when indexing candidate lists. -/
def defaultPath : String := ""

/-- Every candidate failing makes `loadData` throw the fixed message after
fetching every candidate once, in order. -/
theorem loadData_all_fail_general (fetch : String → FetchOutcome α) (paths : List String)
    (hfail : ∀ p ∈ paths, fetchFails (fetch p) = true) :
    loadData fetch paths = (.error loadErrMsg, paths) := by
  induction paths with
  | nil => rfl
  | cons p ps ih =>
    have h0 := hfail p (List.mem_cons_self p ps)
    have hrec := ih (fun q hq => hfail q (List.mem_cons_of_mem p hq))
    cases hf : fetch p with
    | thrown => simp [loadData, hf, hrec]
    | notOk => simp [loadData, hf, hrec]
    | ok body =>
      cases body with
      | none => simp [loadData, hf, hrec]
      | some b => simp [fetchFails, hf] at h0

/-- C1: for every ordered candidate list, if the first `N` candidates fail
(non-ok response or thrown fetch/parse error) and candidate `N+1` yields an
ok response whose body parses, then `loadData` returns that candidate's
parsed content, fetches each failing candidate exactly once, and fetches no
later candidate: its fetch trace is exactly the first `N+1` candidates. -/
theorem claim_C1_loadData_fallback (fetch : String → FetchOutcome α)
    (paths : List String) (N : Nat) (j : α)
    (hN : N < paths.length)
    (hfail : ∀ i, i < N → fetchFails (fetch (paths.getD i defaultPath)) = true)
    (hok : fetch (paths.getD N defaultPath) = .ok (some j)) :
    loadData fetch paths = (.ok j, paths.take (N + 1)) := by
  induction paths generalizing N with
  | nil => simp at hN
  | cons p ps ih =>
    cases N with
    | zero =>
      simp only [List.getD_cons_zero] at hok
      simp [loadData, hok]
    | succ n =>
      have h0 : fetchFails (fetch p) = true := by
        simpa using hfail 0 (Nat.succ_pos n)
      have hrec := ih n (Nat.lt_of_succ_lt_succ hN)
        (fun i hi => by simpa using hfail (i + 1) (Nat.succ_lt_succ hi))
        (by simpa using hok)
      cases hf : fetch p with
      | thrown => simp [loadData, hf, hrec]
      | notOk => simp [loadData, hf, hrec]
      | ok body =>
        cases body with
        | none => simp [loadData, hf, hrec]
        | some b => simp [fetchFails, hf] at h0

/-- Concrete fetch oracle for the C1 witness: the first candidate throws,
the second returns a non-ok response, the third succeeds. -/
def witnessFetch : String → FetchOutcome Int := fun p =>
  if p = "../data/data/cinema_insights.json" then .thrown
  else if p = "../data/cinema_insights.json" then .notOk
  else if p = "data/data/cinema_insights.json" then .ok (some 42)
  else .ok none

theorem claim_C1_witness :
    (2 < DATA_PATHS.length
      ∧ (∀ i, i < 2 → fetchFails (witnessFetch (DATA_PATHS.getD i defaultPath)) = true)
      ∧ witnessFetch (DATA_PATHS.getD 2 defaultPath) = .ok (some 42))
    ∧ loadData witnessFetch DATA_PATHS = (.ok 42, DATA_PATHS.take 3) :=
  ⟨⟨by decide, by decide, by decide⟩,
    claim_C1_loadData_fallback witnessFetch DATA_PATHS 2 42 (by decide) (by decide) (by decide)⟩

instance [DecidableEq ε] [DecidableEq α] : DecidableEq (Except ε α) := fun a b =>
  match a, b with
  | .error e, .error f =>
    if h : e = f then .isTrue (by simp [h]) else .isFalse (by simp [h])
  | .error _, .ok _ => .isFalse (by simp)
  | .ok _, .error _ => .isFalse (by simp)
  | .ok x, .ok y =>
    if h : x = y then .isTrue (by simp [h]) else .isFalse (by simp [h])

/-- C2, counterexample: with every candidate failing, the thrown error's
message is the fixed string `loadErrMsg`, which does not contain even the
first candidate path — the candidate list is not carried in the message. -/
theorem claim_C2_counterexample :
    (loadData (fun _ => .thrown : String → FetchOutcome Payload) DATA_PATHS).1
        = Except.error loadErrMsg
    ∧ containsSub (DATA_PATHS.getD 0 defaultPath).data loadErrMsg.data = false := by
  constructor
  · decide
  · decide

set_option maxRecDepth 40000 in
/-- C2, amended: when every candidate fails, `loadData` throws an error
with the fixed message `loadErrMsg` after fetching the full candidate list
in original order, and the error view rendered by `showError` — not the
error message — contains every candidate of `DATA_PATHS`, contiguously and
in original order. -/
theorem claim_C2_all_fail (fetch : String → FetchOutcome Payload)
    (hfail : ∀ p ∈ DATA_PATHS, fetchFails (fetch p) = true) :
    loadData fetch DATA_PATHS = (.error loadErrMsg, DATA_PATHS)
    ∧ (∀ p ∈ DATA_PATHS,
        containsSub (wrapLi p).data (showErrorHTML loadErrMsg).data = true)
    ∧ containsSub (String.join (DATA_PATHS.map wrapLi)).data
        (showErrorHTML loadErrMsg).data = true := by
  refine ⟨loadData_all_fail_general fetch DATA_PATHS hfail, by decide, by decide⟩

theorem claim_C2_witness :
    (∀ p ∈ DATA_PATHS,
      fetchFails ((fun _ => .thrown : String → FetchOutcome Payload) p) = true)
    ∧ loadData (fun _ => .thrown : String → FetchOutcome Payload) DATA_PATHS
        = (.error loadErrMsg, DATA_PATHS) :=
  ⟨by decide,
    (claim_C2_all_fail (fun _ => .thrown) (by decide)).1⟩

/-- Every replacement `escapeChar` emits is free of raw `<`, `>`, `"`, `'`. -/
theorem escapeChar_no_raw (h : Char) :
    ∀ c ∈ (escapeChar h).data, c ≠ '<' ∧ c ≠ '>' ∧ c ≠ '"' ∧ c ≠ '\'' := by
  unfold escapeChar
  split
  · decide
  · split
    · decide
    · split
      · decide
      · split
        · decide
        · split
          · decide
          · rename_i h1 h2 h3 h4 h5
            intro c hc
            have : c = h := by simpa [String.singleton] using hc
            subst this
            exact ⟨h2, h3, h4, h5⟩

/-- Every character of the escaped text comes from some input character's
replacement. -/
theorem mem_escHTMLAux {c : Char} :
    ∀ {l : List Char}, c ∈ escHTMLAux l → ∃ h ∈ l, c ∈ (escapeChar h).data
  | [], hc => by simp [escHTMLAux] at hc
  | h :: t, hc => by
    rw [escHTMLAux, List.mem_append] at hc
    cases hc with
    | inl h1 => exact ⟨h, List.mem_cons_self h t, h1⟩
    | inr h2 =>
      obtain ⟨g, hg, hcg⟩ := mem_escHTMLAux h2
      exact ⟨g, List.mem_cons_of_mem h hg, hcg⟩

/-- Characters whose replacement is themselves are passed through. -/
theorem escHTMLAux_id :
    ∀ {l : List Char}, (∀ c ∈ l, escapeChar c = String.singleton c) → escHTMLAux l = l
  | [], _ => rfl
  | c :: cs, h => by
    rw [escHTMLAux, h c (List.mem_cons_self c cs),
      escHTMLAux_id (fun d hd => h d (List.mem_cons_of_mem c hd))]
    rfl

/-- The per-character replacement distributes over concatenation. -/
theorem escHTMLAux_append :
    ∀ (l₁ l₂ : List Char), escHTMLAux (l₁ ++ l₂) = escHTMLAux l₁ ++ escHTMLAux l₂
  | [], _ => rfl
  | c :: cs, l₂ => by
    rw [List.cons_append, escHTMLAux, escHTMLAux, escHTMLAux_append cs l₂, List.append_assoc]

/-- C10: `escapeHTML` replaces every occurrence of `&`, `<`, `>`, `"`, `'`
by its HTML entity and leaves every other character unchanged — its output
is the concatenation of the per-character replacements, it is a
homomorphism for concatenation, its output never contains a raw `<`, `>`,
`"` or `'`, and a string without any of the five characters is returned
unchanged. -/
theorem claim_C10_escapeHTML :
    (∀ s : String, (escapeHTML s).data = (s.data.map (fun c => (escapeChar c).data)).flatten)
    ∧ (∀ s₁ s₂ : String, escapeHTML (s₁ ++ s₂) = escapeHTML s₁ ++ escapeHTML s₂)
    ∧ (∀ s : String, ∀ c ∈ (escapeHTML s).data,
        c ≠ '<' ∧ c ≠ '>' ∧ c ≠ '"' ∧ c ≠ '\'')
    ∧ (∀ s : String,
        (∀ c ∈ s.data, c ≠ '&' ∧ c ≠ '<' ∧ c ≠ '>' ∧ c ≠ '"' ∧ c ≠ '\'') →
        escapeHTML s = s) := by
  refine ⟨?_, ?_, ?_, ?_⟩
  · intro s
    show escHTMLAux s.data = _
    induction s.data with
    | nil => rfl
    | cons c cs ih => rw [escHTMLAux, List.map_cons, List.flatten_cons, ih]
  · intro s₁ s₂
    show String.mk (escHTMLAux (s₁ ++ s₂).data) = _
    rw [String.data_append, escHTMLAux_append]
    rfl
  · intro s c hc
    obtain ⟨h, _, hcg⟩ := mem_escHTMLAux hc
    exact escapeChar_no_raw h c hcg
  · intro s hs
    show String.mk (escHTMLAux s.data) = s
    rw [escHTMLAux_id (fun c hc => ?_)]
    · obtain ⟨h1, h2, h3, h4, h5⟩ := hs c hc
      simp [escapeChar, h1, h2, h3, h4, h5]
  
theorem claim_C10_witness :
    (∀ c ∈ ("Greta Gerwig" : String).data,
        c ≠ '&' ∧ c ≠ '<' ∧ c ≠ '>' ∧ c ≠ '"' ∧ c ≠ '\'')
    ∧ escapeHTML ("Greta Gerwig") = "Greta Gerwig" :=
  ⟨by decide, claim_C10_escapeHTML.2.2.2 ("Greta Gerwig") (by decide)⟩

/-- Every row the director normalizer keeps has a truthy name and a
positive movie count. -/
theorem directorRows_mem {l : List (String × PVal)} {d : DirRow}
    (hd : d ∈ directorRows l) : d.name ≠ "" ∧ 0 < d.movie_count := by
  have h1 := List.mem_of_mem_take hd
  have h2 := (List.mem_insertionSort _).1 h1
  have h3 := (List.mem_filter.1 h2).2
  simpa using h3

/-- Every entry the actor normalizer keeps has a truthy, non-sentinel name
and a positive appearance count. -/
theorem actorsNormalize_mem {t : Option TopActors} {a : AEntry}
    (ha : a ∈ actorsNormalize t) :
    (∃ nm, a.name = some nm ∧ nm ≠ "" ∧ jsToLower nm ≠ "unknown")
    ∧ 0 < a.appearances.getD 0 := by
  have hk := (List.mem_filter.1 ha).2
  cases hn : a.name with
  | none => rw [actorKeep, hn] at hk; cases hk
  | some nm =>
    rw [actorKeep, hn] at hk
    simp only [Bool.and_eq_true, decide_eq_true_eq] at hk
    exact ⟨⟨nm, rfl, hk.1.1, hk.1.2⟩, hk.2⟩

/-- A host page carrying every element id the dashboard dereferences. -/
def domAll : Dom :=
  ⟨["loading", "content", "error", "stats-container", "genreChart", "genre-stats",
    "decadeChart", "directors-container", "actors-container",
    "ml-insights-container", "runtimeChart"]⟩

/-- C3, counterexample: on the claim's mapping, the director normalizer
keeps the `"Unknown"` entry (it filters only empty names and non-positive
counts), and the actor normalizer drops every entry (a bare numeric value
in the object form coerces to 0 appearances), so neither returns exactly
`[("John Smith", 3)]`. -/
theorem claim_C3_counterexample :
    directorRows [("Unknown", .num 5), ("Jane Doe", .num 0), ("John Smith", .num 3)]
        = [⟨"Unknown", 5, none⟩, ⟨"John Smith", 3, none⟩]
    ∧ directorRows [("Unknown", .num 5), ("Jane Doe", .num 0), ("John Smith", .num 3)]
        ≠ [⟨"John Smith", 3, none⟩]
    ∧ actorsNormalize (some (.objMap
        [("Unknown", .num 5), ("Jane Doe", .num 0), ("John Smith", .num 3)])) = [] := by
  refine ⟨by decide, by decide, by decide⟩

/-- C3, amended: the actor normalizer excludes entries with a non-positive
count and entries whose name is `"unknown"` case-insensitively, while the
director normalizer excludes only empty names and non-positive counts (the
sentinel is not filtered there); both sort descending by count with a
stable sort and truncate to at most 12.  Bare numeric values are counts in
the directors mapping, but in the object form of `top_actors` they coerce
to 0 appearances and are dropped; the claim's example therefore yields
`[("John Smith", 3)]` for actors only with object-shaped counts. -/
theorem claim_C3_person_normalizers :
    (∀ l : List (String × PVal), ∀ d ∈ directorRows l, d.name ≠ "" ∧ 0 < d.movie_count)
    ∧ (∀ l : List (String × PVal),
        (directorRows l).Sorted (descBy (fun d => d.movie_count))
        ∧ (directorRows l).length ≤ 12)
    ∧ (∀ t : Option TopActors, ∀ a ∈ actorsNormalize t,
        (∃ nm, a.name = some nm ∧ nm ≠ "" ∧ jsToLower nm ≠ "unknown")
        ∧ 0 < a.appearances.getD 0)
    ∧ (∀ (dom : Dom) (t : Option TopActors) (out : List AEntry),
        renderActors dom t = some (.grid out) →
        out.Sorted (descBy (fun a => a.appearances.getD 0))
        ∧ out.length ≤ 12
        ∧ ∀ a ∈ out,
            (∃ nm, a.name = some nm ∧ nm ≠ "" ∧ jsToLower nm ≠ "unknown")
            ∧ 0 < a.appearances.getD 0)
    ∧ actorsNormalize (some (.objMap
        [("Unknown", .obj (some 5) none none),
         ("Jane Doe", .obj (some 0) none none),
         ("John Smith", .obj (some 3) none none)]))
        = [⟨some ("John Smith"), some 3, none⟩] := by
  refine ⟨?_, ?_, ?_, ?_, by decide⟩
  · intro l d hd
    exact directorRows_mem hd
  · intro l
    constructor
    · exact List.Pairwise.sublist (List.take_sublist _ _)
        (List.sorted_insertionSort (descBy (fun d : DirRow => d.movie_count)) _)
    · exact List.length_take_le _ _
  · intro t a ha
    exact actorsNormalize_mem ha
  · intro dom t out h
    rw [renderActors] at h
    by_cases hdom : dom.has ("actors-container") = true
    · rw [if_pos hdom] at h
      by_cases hemp : (actorsNormalize t).isEmpty = true
      · rw [if_pos hemp] at h
        cases h
      · rw [if_neg hemp] at h
        have hout : ((actorsNormalize t).insertionSort
            (descBy (fun a => a.appearances.getD 0))).take 12 = out := by
          have := Option.some.inj h
          exact ActOut.grid.inj this
        subst hout
        refine ⟨List.Pairwise.sublist (List.take_sublist _ _)
            (List.sorted_insertionSort (descBy (fun a : AEntry => a.appearances.getD 0)) _),
          List.length_take_le _ _, ?_⟩
        intro a ha
        exact actorsNormalize_mem ((List.mem_insertionSort _).1 (List.mem_of_mem_take ha))
    · rw [if_neg hdom] at h
      cases h

theorem claim_C3_witness :
    renderActors domAll (some (.objMap
        [("Unknown", .obj (some 5) none none),
         ("John Smith", .obj (some 3) none none)]))
        = some (.grid [⟨some ("John Smith"), some 3, none⟩])
    ∧ ([⟨some ("John Smith"), some 3, none⟩] : List AEntry).Sorted
        (descBy (fun a => a.appearances.getD 0))
    ∧ ([⟨some ("John Smith"), some 3, none⟩] : List AEntry).length ≤ 12 :=
  ⟨by decide,
    (claim_C3_person_normalizers.2.2.2.1 domAll
      (some (.objMap
        [("Unknown", .obj (some 5) none none),
         ("John Smith", .obj (some 3) none none)]))
      [⟨some ("John Smith"), some 3, none⟩] (by decide)).1,
    (claim_C3_person_normalizers.2.2.2.1 domAll
      (some (.objMap
        [("Unknown", .obj (some 5) none none),
         ("John Smith", .obj (some 3) none none)]))
      [⟨some ("John Smith"), some 3, none⟩] (by decide)).2.1⟩

/-- C4, counterexample: with `bins` and `counts` both present but empty,
the guard passes (an empty array is truthy in the `!hist.bins` test) and a
chart with empty data is rendered, where the claim requires rendering
nothing. -/
theorem claim_C4_counterexample :
    renderRuntimeChart domAll (some ⟨some [], some []⟩) = some ⟨[], []⟩
    ∧ renderRuntimeChart domAll (some ⟨some [], some []⟩) ≠ none := by
  refine ⟨by decide, by decide⟩

/-- C4, amended: the runtime histogram renders a chart exactly when the
canvas, the histogram object and both its `bins` and `counts` fields are
present — presence, not non-emptiness, is what the guard checks — and the
histogram input has no effect on any other section's output. -/
theorem claim_C4_runtime_guard (dom : Dom) (hist : Option RuntimeHist) :
    ((renderRuntimeChart dom hist).isSome ↔
      dom.has ("runtimeChart") = true
        ∧ ∃ h, hist = some h ∧ h.bins.isSome = true ∧ h.counts.isSome = true)
    ∧ (∀ (data : Payload) (st : StatsOut) (gd gd' : Option GraphData),
        (renderSections dom { data with graph_data := gd } st).stats
            = (renderSections dom { data with graph_data := gd' } st).stats
        ∧ (renderSections dom { data with graph_data := gd } st).genre
            = (renderSections dom { data with graph_data := gd' } st).genre
        ∧ (renderSections dom { data with graph_data := gd } st).decade
            = (renderSections dom { data with graph_data := gd' } st).decade
        ∧ (renderSections dom { data with graph_data := gd } st).directors
            = (renderSections dom { data with graph_data := gd' } st).directors
        ∧ (renderSections dom { data with graph_data := gd } st).ml
            = (renderSections dom { data with graph_data := gd' } st).ml
        ∧ (renderSections dom { data with graph_data := gd } st).actors
            = (renderSections dom { data with graph_data := gd' } st).actors
        ∧ (renderSections dom { data with graph_data := gd } st).errorHTML
            = (renderSections dom { data with graph_data := gd' } st).errorHTML) := by
  constructor
  · by_cases hdom : dom.has ("runtimeChart") = true
    · cases hist with
      | none => simp [renderRuntimeChart, hdom]
      | some h =>
        cases hb : h.bins with
        | none => simp [renderRuntimeChart, hdom, hb]
        | some bs =>
          cases hc : h.counts with
          | none => simp [renderRuntimeChart, hdom, hb, hc]
          | some cs =>
            have hr : renderRuntimeChart dom (some h) = some ⟨bs, cs⟩ := by
              simp [renderRuntimeChart, hdom, hb, hc]
            rw [hr]
            simp only [Option.isSome_some, true_iff]
            exact ⟨hdom, h, rfl, by rw [hb]; rfl, by rw [hc]; rfl⟩
    · simp [renderRuntimeChart, hdom]
  · intro data st gd gd'
    refine ⟨rfl, rfl, rfl, rfl, rfl, rfl, rfl⟩

/-- Concrete histogram for the C4 witness. -/
def hist60 : RuntimeHist := ⟨some ["60-90"], some [7]⟩

theorem claim_C4_witness :
    (renderRuntimeChart domAll (some hist60)).isSome ↔
      domAll.has ("runtimeChart") = true
        ∧ ∃ h, some hist60 = some h
            ∧ h.bins.isSome = true ∧ h.counts.isSome = true :=
  (claim_C4_runtime_guard domAll (some hist60)).1

/-- Host page missing only the `stats-container` element. -/
def domNoStats : Dom :=
  ⟨["loading", "content", "error", "genreChart", "genre-stats",
    "decadeChart", "directors-container", "actors-container",
    "ml-insights-container", "runtimeChart"]⟩

/-- Payload whose genre section alone is populated. -/
def payloadG : Payload :=
  { basic_stats := none
    genres := some { total_unique_genres := none
                     top_10_genres := some [("Drama", 3)]
                     genre_distribution := none
                     distribution := none }
    decades := none
    directors := none
    actors := none
    ml_insights := none
    graph_data := none }

/-- Fetch oracle whose first candidate succeeds with `payloadG`. -/
def fetchG : String → FetchOutcome Payload := fun _ => .ok (some payloadG)

set_option maxRecDepth 100000 in
/-- C5, counterexample: with `stats-container` missing, `renderStats`
throws inside the single `try` of `initDashboard`; the genre section —
whose own renderer would succeed on this page and payload — is never
rendered, and the error panel is shown instead.  Sections are not isolated
from each other's exceptions. -/
theorem claim_C5_counterexample :
    (initDashboard domNoStats fetchG).genre = none
    ∧ (initDashboard domNoStats fetchG).errorHTML = some (showErrorHTML nullErrMsg)
    ∧ createGenreChart domNoStats (payloadG.genres.getD emptyGenres)
        = some ⟨["Drama"], [3]⟩ := by
  refine ⟨by decide, by decide, by decide⟩

/-- C5, amended: `initDashboard` runs every step inside one `try` block,
so there is a single error boundary for the whole dashboard, not one per
section: when the payload loads and the `loading`/`content` elements
exist, either `renderStats` succeeds and every section renderer runs, or
`renderStats` throws (its container is missing) and no section at all is
rendered — the catch handler shows the error panel instead. -/
theorem claim_C5_single_boundary (dom : Dom) (fetch : String → FetchOutcome Payload)
    (data : Payload)
    (hload : (loadData fetch DATA_PATHS).1 = .ok data)
    (hl : dom.has ("loading") = true) (hc : dom.has ("content") = true) :
    (dom.has ("stats-container") = true →
      ∃ st, renderStats dom data = .ok st
        ∧ initDashboard dom fetch = renderSections dom data st
        ∧ (initDashboard dom fetch).errorHTML = none)
    ∧ (dom.has ("stats-container") = false →
      initDashboard dom fetch
          = { emptyOut with errorHTML := some (showErrorHTML nullErrMsg) }) := by
  have hrw : initDashboard dom fetch = initAfterLoad dom (.ok data) := by
    rw [initDashboard, hload]
  have hbool : (dom.has ("loading") && dom.has ("content")) = true := by
    rw [hl, hc]; rfl
  constructor
  · intro hst
    have hrs : renderStats dom data = .ok (statsValues data) := by
      rw [renderStats, if_pos hst]
    refine ⟨statsValues data, hrs, ?_, ?_⟩
    · rw [hrw, initAfterLoad, if_pos hbool, hrs]
    · rw [hrw, initAfterLoad, if_pos hbool, hrs]
      rfl
  · intro hst
    have hrs : renderStats dom data = .error () := by
      rw [renderStats, if_neg (by rw [hst]; exact Bool.false_ne_true)]
    rw [hrw, initAfterLoad, if_pos hbool, hrs]

set_option maxRecDepth 100000 in
theorem claim_C5_witness :
    ((loadData fetchG DATA_PATHS).1 = .ok payloadG
      ∧ domAll.has ("loading") = true ∧ domAll.has ("content") = true
      ∧ domNoStats.has ("stats-container") = false)
    ∧ (∃ st, renderStats domAll payloadG = .ok st
        ∧ initDashboard domAll fetchG = renderSections domAll payloadG st
        ∧ (initDashboard domAll fetchG).errorHTML = none)
    ∧ initDashboard domNoStats fetchG
        = { emptyOut with errorHTML := some (showErrorHTML nullErrMsg) } :=
  ⟨⟨by decide, by decide, by decide, by decide⟩,
    (claim_C5_single_boundary domAll fetchG payloadG (by decide) (by decide) (by decide)).1
      (by decide),
    (claim_C5_single_boundary domNoStats fetchG payloadG (by decide) (by decide) (by decide)).2
      (by decide)⟩

/-- Stability of the modelled sort: elements agreeing on a predicate under
which all pairs are related stay exactly where they were, so filtering the
sorted list on one key value returns the original subsequence. -/
theorem insertionSort_filter_stable (r : α → α → Prop) [DecidableRel r]
    (p : α → Bool) (hp : ∀ x y, p x = true → p y = true → r x y)
    (l : List α) : (l.insertionSort r).filter p = l.filter p := by
  have hpair : (l.filter p).Pairwise r :=
    List.pairwise_of_forall_mem_list (fun x hx y hy =>
      hp x y (List.of_mem_filter hx) (List.of_mem_filter hy))
  have hsub : (l.filter p).Sublist (l.insertionSort r) :=
    List.sublist_insertionSort hpair (List.filter_sublist l)
  have hidem : (l.filter p).filter p = l.filter p := by
    rw [List.filter_filter]
    exact List.filter_congr (fun x _ => Bool.and_self (p x))
  have hsub2 : (l.filter p).Sublist ((l.insertionSort r).filter p) := by
    have h2 := List.Sublist.filter p hsub
    rwa [hidem] at h2
  have hperm : ((l.insertionSort r).filter p).Perm (l.filter p) :=
    List.Perm.filter p (List.perm_insertionSort r l)
  exact (hsub2.eq_of_length hperm.length_eq.symm).symm

/-- C6: for every genre distribution with at least 10 entries and
pairwise-distinct counts, `pickTop` returns exactly 10 of the original
entries (counts unaltered), strictly descending by count, and every entry
left out has a smaller count than every entry kept; moreover the
underlying sort is stable, so entries with tied counts keep their original
relative order (their filtered subsequence is unchanged). -/
theorem claim_C6_genre_top10 (entries : List (String × Int))
    (hlen : 10 ≤ entries.length)
    (hnd : (entries.map (fun e => e.2)).Nodup) :
    (pickTop entries 10).length = 10
    ∧ (pickTop entries 10).Subperm entries
    ∧ (pickTop entries 10).Pairwise (fun a b => b.2 < a.2)
    ∧ (∀ y ∈ entries, y ∉ pickTop entries 10 → ∀ x ∈ pickTop entries 10, y.2 < x.2)
    ∧ (∀ (l : List (String × Int)) (v : Int),
        (l.insertionSort (descBy (fun e => e.2))).filter (fun e => e.2 == v)
          = l.filter (fun e => e.2 == v)) := by
  have hsorted : (entries.insertionSort (descBy (fun e : String × Int => e.2))).Sorted
      (descBy (fun e : String × Int => e.2)) :=
    List.sorted_insertionSort _ _
  have hperm : (entries.insertionSort (descBy (fun e : String × Int => e.2))).Perm entries :=
    List.perm_insertionSort _ _
  have hlen2 : (entries.insertionSort (descBy (fun e : String × Int => e.2))).length
      = entries.length := hperm.length_eq
  have hndS : ((entries.insertionSort (descBy (fun e : String × Int => e.2))).map
      (fun e => e.2)).Nodup :=
    (List.Perm.nodup_iff (hperm.map (fun e => e.2))).2 hnd
  refine ⟨?_, ?_, ?_, ?_, ?_⟩
  · rw [pickTop, List.length_take, hlen2]
    exact Nat.min_eq_left hlen
  · exact ((List.take_sublist _ _).subperm).trans hperm.subperm
  · have hne : (entries.insertionSort (descBy (fun e : String × Int => e.2))).Pairwise
        (fun a b => a.2 ≠ b.2) := List.pairwise_map.1 hndS
    have hpw : (entries.insertionSort (descBy (fun e : String × Int => e.2))).Pairwise
        (fun a b => b.2 < a.2) :=
      (hsorted.and hne).imp (fun h => lt_of_le_of_ne h.1 h.2.symm)
    exact List.Pairwise.sublist (List.take_sublist _ _) hpw
  · intro y hy hyn x hx
    rw [pickTop] at hyn hx
    have hys : y ∈ entries.insertionSort (descBy (fun e : String × Int => e.2)) :=
      hperm.mem_iff.2 hy
    rw [← List.take_append_drop 10
      (entries.insertionSort (descBy (fun e : String × Int => e.2)))] at hys
    have hyd : y ∈ (entries.insertionSort (descBy (fun e : String × Int => e.2))).drop 10 := by
      cases List.mem_append.1 hys with
      | inl h => exact absurd h hyn
      | inr h => exact h
    have hle : y.2 ≤ x.2 := hsorted.rel_of_mem_take_of_mem_drop hx hyd
    have hxm : x.2 ∈ ((entries.insertionSort
        (descBy (fun e : String × Int => e.2))).take 10).map (fun e => e.2) :=
      List.mem_map_of_mem _ hx
    have hym : y.2 ∈ ((entries.insertionSort
        (descBy (fun e : String × Int => e.2))).drop 10).map (fun e => e.2) :=
      List.mem_map_of_mem _ hyd
    have hd := hndS
    rw [← List.take_append_drop 10
        (entries.insertionSort (descBy (fun e : String × Int => e.2))),
      List.map_append] at hd
    have hdisj := (List.nodup_append.1 hd).2.2
    exact lt_of_le_of_ne hle (fun e => hdisj hxm (e ▸ hym))
  · intro l v
    refine insertionSort_filter_stable _ _ (fun x y hx hy => ?_) l
    simp only [beq_iff_eq] at hx hy
    rw [descBy, hx, hy]

/-- Fifteen genres with pairwise-distinct counts, the spec's example
shape. -/
def genreSample : List (String × Int) :=
  [("Drama", 40), ("Comedy", 35), ("Thriller", 31), ("Action", 28),
   ("Romance", 26), ("Horror", 22), ("Sci-Fi", 19), ("Documentary", 17),
   ("Animation", 14), ("Crime", 12), ("Fantasy", 9), ("Mystery", 7),
   ("Western", 5), ("War", 3), ("Musical", 1)]

theorem claim_C6_witness :
    (10 ≤ genreSample.length ∧ (genreSample.map (fun e => e.2)).Nodup)
    ∧ (pickTop genreSample 10).length = 10
    ∧ (pickTop genreSample 10).Subperm genreSample :=
  ⟨⟨by decide, by decide⟩,
    (claim_C6_genre_top10 genreSample (by decide) (by decide)).1,
    (claim_C6_genre_top10 genreSample (by decide) (by decide)).2.1⟩

/-- `orderedInsert` preserves sortedness when totality and transitivity
hold on the elements actually present (needed because the decade
comparator is only total/transitive on parsable keys). -/
theorem sorted_orderedInsert_restricted (r : α → α → Prop) [DecidableRel r] (P : α → Prop)
    (htot : ∀ x y, P x → P y → ¬ r x y → r y x)
    (htrans : ∀ x y z, P x → P y → P z → r x y → r y z → r x z) :
    ∀ (a : α) (l : List α), P a → (∀ x ∈ l, P x) → l.Sorted r →
      (l.orderedInsert r a).Sorted r
  | a, [], _, _, _ => List.sorted_singleton a
  | a, b :: t, ha, hl, hs => by
    rw [List.orderedInsert]
    split
    · rename_i hab
      refine List.sorted_cons.2 ⟨?_, hs⟩
      intro y hy
      cases List.mem_cons.1 hy with
      | inl h => exact h ▸ hab
      | inr h =>
        exact htrans a b y ha (hl b (List.mem_cons_self b t))
          (hl y hy) hab (List.rel_of_sorted_cons hs y h)
    · rename_i hab
      have hba := htot a b ha (hl b (List.mem_cons_self b t)) hab
      refine List.sorted_cons.2 ⟨?_, ?_⟩
      · intro y hy
        cases (List.mem_orderedInsert r).1 hy with
        | inl h => exact h ▸ hba
        | inr h => exact List.rel_of_sorted_cons hs y h
      · exact sorted_orderedInsert_restricted r P htot htrans a t ha
          (fun x hx => hl x (List.mem_cons_of_mem b hx)) hs.of_cons

/-- `insertionSort` sorts any list whose elements satisfy the predicate on
which the relation is total and transitive. -/
theorem sorted_insertionSort_restricted (r : α → α → Prop) [DecidableRel r] (P : α → Prop)
    (htot : ∀ x y, P x → P y → ¬ r x y → r y x)
    (htrans : ∀ x y z, P x → P y → P z → r x y → r y z → r x z) :
    ∀ l : List α, (∀ x ∈ l, P x) → (l.insertionSort r).Sorted r
  | [], _ => List.sorted_nil
  | a :: t, hl => by
    rw [List.insertionSort]
    exact sorted_orderedInsert_restricted r P htot htrans a (t.insertionSort r)
      (hl a (List.mem_cons_self a t))
      (fun x hx => hl x (List.mem_cons_of_mem a ((List.mem_insertionSort r).1 hx)))
      (sorted_insertionSort_restricted r P htot htrans t
        (fun x hx => hl x (List.mem_cons_of_mem a hx)))

/-- The claim's precondition on a decade value: a bare number, an object
with a numeric `count` field, or a value whose coercion is non-finite
(which the claim says is discarded). -/
def claimShape : DVal → Bool
  | .num _ => true
  | .obj (some (.num _)) => true
  | v => !(isFiniteJS (coerceCount v))

/-- The decade normalizer as the claim words it: each bare number becomes
its own count and each object contributes its numeric `count` field, keys
coerce with `Number`, and everything else is discarded. -/
def claimedDecadeArm (kv : String × DVal) : Option (Option Int × DVal) :=
  match kv.2 with
  | .num n => some (jsStrToNum kv.1, .num n)
  | .obj (some (.num c)) => some (jsStrToNum kv.1, .num c)
  | _ => none

/-- The claimed normalizer: coerce, discard, sort ascending by decade. -/
def claimedDecadePairs (decades : List (String × DVal)) : List (Option Int × DVal) :=
  (decades.filterMap claimedDecadeArm).insertionSort decadeLE

/-- Under the claim's value precondition, the code's map-then-filter agrees
entry-for-entry with the claimed coercion. -/
theorem decade_filter_eq_claimed (decades : List (String × DVal))
    (hvals : ∀ kv ∈ decades, claimShape kv.2 = true) :
    (decades.map (fun kv => (jsStrToNum kv.1, coerceCount kv.2))).filter
        (fun e => isFiniteJS e.2)
      = decades.filterMap claimedDecadeArm := by
  induction decades with
  | nil => rfl
  | cons kv t ih =>
    have hh := hvals kv (List.mem_cons_self kv t)
    have ht := ih (fun q hq => hvals q (List.mem_cons_of_mem kv hq))
    obtain ⟨k, v⟩ := kv
    cases v with
    | num n =>
      have h1 : isFiniteJS (coerceCount (DVal.num n)) = true := rfl
      have h2 : claimedDecadeArm (k, DVal.num n)
          = some (jsStrToNum k, DVal.num n) := rfl
      have h3 : coerceCount (DVal.num n) = DVal.num n := rfl
      have h4 : isFiniteJS (DVal.num n) = true := rfl
      simp [List.map_cons, List.filter_cons, List.filterMap_cons, h1, h2, h3, h4, ht]
    | str s =>
      have h0 : coerceCount (DVal.str s) = DVal.str s := rfl
      have h1 : isFiniteJS (DVal.str s) = false := by
        simpa [claimShape, coerceCount] using hh
      have h2 : claimedDecadeArm (k, DVal.str s) = none := rfl
      simp [List.map_cons, List.filter_cons, List.filterMap_cons, h0, h1, h2, ht]
    | null =>
      exact absurd hh (by simp [claimShape, coerceCount, isFiniteJS])
    | obj oc =>
      cases oc with
      | none =>
        have h1 : isFiniteJS (coerceCount (DVal.obj none)) = false := rfl
        have h2 : claimedDecadeArm (k, DVal.obj none) = none := rfl
        simp [List.map_cons, List.filter_cons, List.filterMap_cons, h1, h2, ht]
      | some c =>
        cases c with
        | num m =>
          have h1 : isFiniteJS (coerceCount (DVal.obj (some (DVal.num m)))) = true := rfl
          have h2 : claimedDecadeArm (k, DVal.obj (some (DVal.num m)))
              = some (jsStrToNum k, DVal.num m) := rfl
          have h3 : coerceCount (DVal.obj (some (DVal.num m))) = DVal.num m := rfl
          have h4 : isFiniteJS (DVal.num m) = true := rfl
          simp [List.map_cons, List.filter_cons, List.filterMap_cons, h1, h2, h3, h4, ht]
        | str s2 =>
          have h0 : coerceCount (DVal.obj (some (DVal.str s2))) = DVal.str s2 := rfl
          have h1 : isFiniteJS (DVal.str s2) = false := by
            simpa [claimShape, coerceCount] using hh
          have h2 : claimedDecadeArm (k, DVal.obj (some (DVal.str s2))) = none := rfl
          simp [List.map_cons, List.filter_cons, List.filterMap_cons, h0, h1, h2, ht]
        | obj oc2 =>
          have h1 : isFiniteJS (coerceCount (DVal.obj (some (DVal.obj oc2)))) = false := rfl
          have h2 : claimedDecadeArm (k, DVal.obj (some (DVal.obj oc2))) = none := rfl
          simp [List.map_cons, List.filter_cons, List.filterMap_cons, h1, h2, ht]
        | null =>
          have h1 : isFiniteJS (coerceCount (DVal.obj (some DVal.null))) = false := rfl
          have h2 : claimedDecadeArm (k, DVal.obj (some DVal.null)) = none := rfl
          simp [List.map_cons, List.filter_cons, List.filterMap_cons, h1, h2, ht]

/-- C7: for every decade mapping whose keys parse as numbers and whose
values are bare numbers, objects with a numeric `count` field, or values
whose JS coercion is non-finite, the decade normalizer equals the claimed
normalizer — numeric (decade, count) pairs, non-finite entries discarded,
ascending by decade — its output is sorted ascending and consists of
numeric pairs; in particular the claim's example
`{1990: {count: 12}, 1980: 7, 2000: "bad"}` normalizes to
`[(1980, 7), (1990, 12)]`. -/
theorem claim_C7_decade_normalizer (decades : List (String × DVal))
    (hkeys : ∀ kv ∈ decades, (jsStrToNum kv.1).isSome = true)
    (hvals : ∀ kv ∈ decades, claimShape kv.2 = true) :
    decadeEntries decades = claimedDecadePairs decades
    ∧ (decadeEntries decades).Sorted decadeLE
    ∧ (∀ e ∈ decadeEntries decades, e.1.isSome = true ∧ ∃ n, e.2 = DVal.num n)
    ∧ decadeEntries
        [("1990", .obj (some (.num 12))), ("1980", .num 7), ("2000", .str ("bad"))]
        = [(some 1980, .num 7), (some 1990, .num 12)] := by
  have heq : (decades.map (fun kv => (jsStrToNum kv.1, coerceCount kv.2))).filter
      (fun e => isFiniteJS e.2) = decades.filterMap claimedDecadeArm :=
    decade_filter_eq_claimed decades hvals
  have hmem : ∀ e ∈ (decades.map (fun kv => (jsStrToNum kv.1, coerceCount kv.2))).filter
      (fun e => isFiniteJS e.2), e.1.isSome = true ∧ ∃ n, e.2 = DVal.num n := by
    rw [heq]
    intro e he
    obtain ⟨kv, hkv, harm⟩ := List.mem_filterMap.1 he
    obtain ⟨k, v⟩ := kv
    cases v with
    | num n =>
      rw [claimedDecadeArm] at harm
      cases harm
      exact ⟨hkeys (k, .num n) hkv, n, rfl⟩
    | str s => cases harm
    | null => cases harm
    | obj oc =>
      cases oc with
      | none => cases harm
      | some c =>
        cases c with
        | num m =>
          rw [claimedDecadeArm] at harm
          cases harm
          exact ⟨hkeys (k, .obj (some (.num m))) hkv, m, rfl⟩
        | str s2 => cases harm
        | obj oc2 => cases harm
        | null => cases harm
  refine ⟨?_, ?_, ?_, by decide⟩
  · rw [decadeEntries, claimedDecadePairs, heq]
  · rw [decadeEntries]
    refine sorted_insertionSort_restricted decadeLE (fun e => e.1.isSome = true)
      ?_ ?_ _ (fun x hx => (hmem x hx).1)
    · intro x y hx hy hxy
      obtain ⟨a, ha⟩ := Option.isSome_iff_exists.1 hx
      obtain ⟨b, hb⟩ := Option.isSome_iff_exists.1 hy
      rw [decadeLE] at hxy ⊢
      rw [ha, hb] at hxy ⊢
      exact le_of_not_le hxy
    · intro x y z hx hy hz hxy hyz
      obtain ⟨a, ha⟩ := Option.isSome_iff_exists.1 hx
      obtain ⟨b, hb⟩ := Option.isSome_iff_exists.1 hy
      obtain ⟨c, hc⟩ := Option.isSome_iff_exists.1 hz
      rw [decadeLE] at hxy hyz ⊢
      rw [ha, hb] at hxy
      rw [hb, hc] at hyz
      rw [ha, hc]
      exact le_trans hxy hyz
  · intro e he
    exact hmem e ((List.mem_insertionSort decadeLE).1 he)

/-- The claim's example input for C7. -/
def decadeSample : List (String × DVal) :=
  [("1990", .obj (some (.num 12))), ("1980", .num 7), ("2000", .str ("bad"))]

theorem claim_C7_witness :
    ((∀ kv ∈ decadeSample, (jsStrToNum kv.1).isSome = true)
      ∧ (∀ kv ∈ decadeSample, claimShape kv.2 = true))
    ∧ decadeEntries decadeSample = claimedDecadePairs decadeSample
    ∧ decadeEntries decadeSample = [(some 1980, .num 7), (some 1990, .num 12)] :=
  ⟨⟨by decide, by decide⟩,
    (claim_C7_decade_normalizer decadeSample (by decide) (by decide)).1,
    (claim_C7_decade_normalizer decadeSample (by decide) (by decide)).2.2.2⟩

/-- C8: the ML renderer accepts either field name for the cluster mapping
(`taste_clusters` first, `genre_clusters` as fallback), and whenever the
section is processed on a page with its container, it renders the
not-enough-data placeholder exactly when the selected mapping is empty —
in particular when neither field is present — rather than an empty
chart. -/
theorem claim_C8_ml_clusters (dom : Dom) (ml : MLIns)
    (hdom : dom.has ("ml-insights-container") = true) :
    (renderMLInsights dom ml = some .placeholder ↔ mlClusters ml = [])
    ∧ (∀ m, ml.taste_clusters = some m → mlClusters ml = m)
    ∧ (∀ m, ml.taste_clusters = none → ml.genre_clusters = some m → mlClusters ml = m)
    ∧ (ml.taste_clusters = none → ml.genre_clusters = none →
        renderMLInsights dom ml = some .placeholder)
    ∧ (mlClusters ml ≠ [] →
        renderMLInsights dom ml
          = some (.cards (((mlClusters ml).take 6).map mlCardOf))) := by
  refine ⟨?_, ?_, ?_, ?_, ?_⟩
  · constructor
    · intro h
      by_cases hemp : (mlClusters ml).isEmpty = true
      · exact List.isEmpty_iff.1 hemp
      · rw [renderMLInsights, if_pos hdom, if_neg hemp] at h
        cases Option.some.inj h
    · intro h
      rw [renderMLInsights, if_pos hdom, if_pos (by rw [h]; rfl)]
  · intro m h
    rw [mlClusters, h]
  · intro m h1 h2
    rw [mlClusters, h1, h2]
  · intro h1 h2
    rw [renderMLInsights, if_pos hdom, if_pos (by rw [mlClusters, h1, h2]; rfl)]
  · intro hne
    rw [renderMLInsights, if_pos hdom,
      if_neg (fun h => hne (List.isEmpty_iff.1 h))]

theorem claim_C8_witness :
    (domAll.has ("ml-insights-container") = true)
    ∧ (renderMLInsights domAll ⟨none, none⟩ = some .placeholder
        ↔ mlClusters ⟨none, none⟩ = [])
    ∧ renderMLInsights domAll ⟨none, none⟩ = some .placeholder :=
  ⟨by decide,
    (claim_C8_ml_clusters domAll ⟨none, none⟩ (by decide)).1,
    (claim_C8_ml_clusters domAll ⟨none, none⟩ (by decide)).2.2.2.1 rfl rfl⟩

/-- C9, counterexample: the genre chart renders a negative count and the
ML cards render a percentage above 100 exactly as given — counts are not
clamped to be non-negative and percentages are not clamped to 0–100. -/
theorem claim_C9_counterexample :
    createGenreChart domAll
        { total_unique_genres := none
          top_10_genres := some [("A", -5)]
          genre_distribution := none
          distribution := none }
        = some ⟨["A"], [-5]⟩
    ∧ ((-5 : Int) < 0)
    ∧ renderMLInsights domAll
        { taste_clusters := some [("c", ⟨some 3, some 150⟩)]
          genre_clusters := none }
        = some (.cards [⟨"c", 3, 150⟩])
    ∧ ((100 : Int) < 150) := by
  refine ⟨by decide, by decide, by decide, by decide⟩

/-- C9, amended: the directors and actors sections only render entries
with strictly positive counts, but the remaining sections pass payload
values through without clamping — the genre chart renders the chosen
mapping's counts verbatim, the ML cards render each cluster's size and
percentage verbatim, the decade chart renders exactly the normalizer's
coerced entries, and the runtime histogram renders the payload's `bins`
and `counts` arrays verbatim — so a negative count or an out-of-range
percentage in those payload fields reaches the rendered widget
unchanged. -/
theorem claim_C9_value_ranges :
    (∀ l : List (String × PVal), ∀ d ∈ directorRows l, 0 < d.movie_count)
    ∧ (∀ t : Option TopActors, ∀ a ∈ actorsNormalize t, 0 < a.appearances.getD 0)
    ∧ (∀ (dom : Dom) (g : GenresBlock) (out : GenreOut),
        createGenreChart dom g = some out →
        out.values = (chooseGenres g).map (fun e => e.2))
    ∧ (∀ (dom : Dom) (ml : MLIns) (cs : List MLCard),
        renderMLInsights dom ml = some (.cards cs) →
        cs = ((mlClusters ml).take 6).map mlCardOf)
    ∧ (∀ (dom : Dom) (decades : List (String × DVal)) (out : List (Option Int × DVal)),
        createDecadeChart dom decades = some out → out = decadeEntries decades)
    ∧ (∀ (dom : Dom) (hist : Option RuntimeHist) (out : RuntimeOut),
        renderRuntimeChart dom hist = some out →
        ∃ h, hist = some h ∧ h.bins = some out.labels ∧ h.counts = some out.values) := by
  refine ⟨?_, ?_, ?_, ?_, ?_, ?_⟩
  · intro l d hd
    exact (directorRows_mem hd).2
  · intro t a ha
    exact (actorsNormalize_mem ha).2
  · intro dom g out h
    rw [createGenreChart] at h
    by_cases hdom : dom.has ("genreChart") = true
    · rw [if_pos hdom] at h
      by_cases hemp : (chooseGenres g).isEmpty = true
      · rw [if_pos hemp] at h
        cases h
      · rw [if_neg hemp] at h
        cases Option.some.inj h
        rfl
    · rw [if_neg hdom] at h
      cases h
  · intro dom ml cs h
    rw [renderMLInsights] at h
    by_cases hdom : dom.has ("ml-insights-container") = true
    · rw [if_pos hdom] at h
      by_cases hemp : (mlClusters ml).isEmpty = true
      · rw [if_pos hemp] at h
        cases Option.some.inj h
      · rw [if_neg hemp] at h
        exact (MLOut.cards.inj (Option.some.inj h)).symm
    · rw [if_neg hdom] at h
      cases h
  · intro dom decades out h
    simp only [createDecadeChart] at h
    by_cases hdom : dom.has ("decadeChart") = true
    · rw [if_pos hdom] at h
      by_cases hemp : (decadeEntries decades).isEmpty = true
      · rw [if_pos hemp] at h
        cases h
      · rw [if_neg hemp] at h
        exact (Option.some.inj h).symm
    · rw [if_neg hdom] at h
      cases h
  · intro dom hist out h
    by_cases hdom : dom.has ("runtimeChart") = true
    · cases hist with
      | none => simp [renderRuntimeChart, hdom] at h
      | some hh =>
        cases hb : hh.bins with
        | none =>
          have hnone : renderRuntimeChart dom (some hh) = none := by
            simp [renderRuntimeChart, hdom, hb]
          rw [hnone] at h
          cases h
        | some bs =>
          cases hc : hh.counts with
          | none =>
            have hnone : renderRuntimeChart dom (some hh) = none := by
              simp [renderRuntimeChart, hdom, hb, hc]
            rw [hnone] at h
            cases h
          | some cs =>
            have hr : renderRuntimeChart dom (some hh) = some ⟨bs, cs⟩ := by
              simp [renderRuntimeChart, hdom, hb, hc]
            rw [hr] at h
            cases Option.some.inj h
            exact ⟨hh, rfl, by rw [hb], by rw [hc]⟩
    · simp [renderRuntimeChart, hdom] at h

theorem claim_C9_witness :
    createGenreChart domAll
        { total_unique_genres := none
          top_10_genres := some [("B", 4)]
          genre_distribution := none
          distribution := none }
        = some ⟨["B"], [4]⟩
    ∧ (⟨["B"], [4]⟩ : GenreOut).values
        = (chooseGenres
            { total_unique_genres := none
              top_10_genres := some [("B", 4)]
              genre_distribution := none
              distribution := none }).map (fun e => e.2) :=
  ⟨by decide,
    claim_C9_value_ranges.2.2.1 domAll
      { total_unique_genres := none
        top_10_genres := some [("B", 4)]
        genre_distribution := none
        distribution := none }
      ⟨["B"], [4]⟩ (by decide)⟩
